import Mathlib

/-!
Shallow embedding of `GrblMotors/grbldriver.py` (class `GrblDriver`).

The driver is a synchronous serial protocol layer.  We model each method as a
pure function of the lines it drains from the device, returning the list of
primitive I/O actions it performs together with an `Except` result mirroring
Python's exception behaviour.  Numeric values are modelled as `ℚ`; every value
that actually flows through the driver's configuration (1000, 384, 5, 255, …)
is exactly representable both as a decimal string and as an IEEE double, so
rational arithmetic agrees with Python's float arithmetic on all comparisons
the code performs.
-/

/- The Batteries rational arithmetic is `@[irreducible]` by default; restore
the default transparency so that concrete driver computations evaluate. -/
attribute [local semireducible] Rat.mul Rat.add Rat.sub Rat.inv

deriving instance DecidableEq for Except

/-- Python `str.split(sep)` for a single-character separator, on the character
list of a string: split at every occurrence, keeping empty fragments (so
`"".split(c) == [""]`). -/
def splitChar (sep : Char) : List Char → List (List Char)
  | [] => [[]]
  | c :: rest =>
    match splitChar sep rest with
    | [] => [[]]
    | g :: gs => if c = sep then [] :: g :: gs else (c :: g) :: gs

/-- `str.split` at the `String` level. -/
def strSplit (sep : Char) (s : String) : List String :=
  (splitChar sep s.data).map String.mk

/-- Rejoin fragments with a separator (inverse of `splitChar` on the kept side). -/
def joinSep (sep : Char) : List (List Char) → List Char
  | [] => []
  | [g] => g
  | g :: gs => g ++ sep :: joinSep sep gs

/-- Digits of a decimal numeral to a natural number (`int`/`float` digit accumulation). -/
def digitsToNat (cs : List Char) : ℕ :=
  cs.foldl (fun a c => 10 * a + (c.toNat - 48)) 0

/-- Model of Python `int(s)` on a regex group `(\d*)`: fails (ValueError) on an
empty string, otherwise reads the decimal digits. -/
def pyInt (s : String) : Option ℕ :=
  if s.length > 0 ∧ s.data.all Char.isDigit then some (digitsToNat s.data) else none

/-- Model of Python `float(s)` restricted to the digit/dot shapes produced by the
driver's regex groups (`\d{1,5}\.?\d{0,3}` and `\d*\.?\d*`): digits, an optional
dot, digits.  `float("")` and `float(".")` raise ValueError, modelled as `none`. -/
def pyFloat (s : String) : Option ℚ :=
  match splitChar '.' s.data with
  | [a] =>
    if a.length > 0 ∧ a.all Char.isDigit then some (digitsToNat a) else none
  | [a, b] =>
    if a.length + b.length > 0 ∧ a.all Char.isDigit ∧ b.all Char.isDigit then
      some ((digitsToNat a : ℚ) + (digitsToNat b : ℚ) / (10 ^ b.length : ℚ))
    else none
  | _ => none

/-- Pad the decimal numeral of `n` with leading zeros to width `k`. -/
def padZeros (k : ℕ) (n : ℕ) : String :=
  let s := toString n
  String.mk (List.replicate (k - s.length) '0') ++ s

/-- Model of Python `'{:.3f}'.format(v)`: fixed-point with exactly three decimal
places, ties rounded half-to-even (IEEE default).  All values the driver formats
are exact multiples of 1/1000, so no rounding ever fires on real inputs. -/
def format3 (q : ℚ) : String :=
  let sign := if q < 0 then "-" else ""
  let a : ℚ := |q| * 1000
  let fl : ℤ := ⌊a⌋
  let fr : ℚ := a - fl
  let n : ℤ := if fr > 1/2 then fl + 1 else if fr < 1/2 then fl
               else if fl % 2 = 0 then fl else fl + 1
  let m : ℕ := n.toNat
  sign ++ toString (m / 1000) ++ "." ++ padZeros 3 (m % 1000)

/-- Model of Python `str(v)` on a float whose value is a terminating decimal
(shortest round-tripping decimal with at least one fractional digit — `str(1.0)`
is `"1.0"`, `str(1.5)` is `"1.5"`).  Only used on values whose double is
decimally exact, where the shortest decimal is the value itself. -/
def pyFloatStr (q : ℚ) : String :=
  let sign := if q < 0 then "-" else ""
  let a : ℚ := |q|
  let k : ℕ := 1 + (((List.range 20).find? (fun i => (a * 10 ^ (i + 1)).den = 1)).getD 0)
  let m : ℕ := (a * 10 ^ k).num.toNat
  sign ++ toString (m / 10 ^ k) ++ "." ++ padZeros k (m % 10 ^ k)

/-- Python `dict` lookup `d[k]` as an option (`none` ↔ KeyError). -/
def dictGet {α : Type} (d : List (String × α)) (k : String) : Option α :=
  match d with
  | [] => none
  | (k', v) :: rest => if k' = k then some v else dictGet rest k

/-- Python `dict` assignment `d[k] = v`: replace in place if the key exists,
otherwise append (insertion order preserved, as in Python 3.7+ dicts). -/
def dictInsert {α : Type} (d : List (String × α)) (k : String) (v : α) :
    List (String × α) :=
  match d with
  | [] => [(k, v)]
  | (k', v') :: rest =>
    if k' = k then (k, v) :: rest else (k', v') :: dictInsert rest k v

/-- Lookup in the global-config map (ℕ keys), Python `d[k]` / `k in d.keys()`. -/
def dictGetNat {α : Type} (d : List (ℕ × α)) (k : ℕ) : Option α :=
  match d with
  | [] => none
  | (k', v) :: rest => if k' = k then some v else dictGetNat rest k

/-- Model of `re.match(r'(\$\d{1,3})=(\d{1,5}\.?\d{0,3})', s)` from
`verify_settings` (grbldriver.py line 137), returning the two groups.  The
match is anchored at the start only; greedy matching with backtracking means:
`$` must be first, the maximal digit run after it must have length 1–3 and be
followed by `=`; the value group takes up to 5 digits, then an optional dot
(only if the digit run was ≤ 5 long), then up to 3 further digits. -/
def settingsre_match (s : String) : Option (String × String) :=
  match s.data with
  | '$' :: rest =>
    let ds := rest.takeWhile Char.isDigit
    if 1 ≤ ds.length ∧ ds.length ≤ 3 then
      match rest.drop ds.length with
      | '=' :: val =>
        let d1 := val.takeWhile Char.isDigit
        if d1.length = 0 then none
        else if d1.length ≤ 5 then
          match val.drop d1.length with
          | '.' :: tail =>
            let d2 := (tail.takeWhile Char.isDigit).take 3
            some (String.mk ('$' :: ds), String.mk (d1 ++ '.' :: d2))
          | _ => some (String.mk ('$' :: ds), String.mk d1)
        else
          some (String.mk ('$' :: ds), String.mk (d1.take 5 ++ (d1.drop 5).take 3))
      | _ => none
    else none
  | _ => none

/-- Model of `re.match(r'\$(\d*)=(\d*\.?\d*)', s)` from the global-config scan
(grbldriver.py line 167).  Group 1 is the (possibly empty) digit run after `$`,
which must be followed by `=`; group 2 greedily takes digits, an optional dot,
and digits, and may be empty. -/
def globalre_match (s : String) : Option (String × String) :=
  match s.data with
  | '$' :: rest =>
    let ds := rest.takeWhile Char.isDigit
    match rest.drop ds.length with
    | '=' :: val =>
      let d1 := val.takeWhile Char.isDigit
      match val.drop d1.length with
      | '.' :: tail =>
        some (String.mk ds, String.mk (d1 ++ '.' :: tail.takeWhile Char.isDigit))
      | _ => some (String.mk ds, String.mk d1)
    | _ => none
  | _ => none

/-- The exceptions the Python driver can raise, tagged by kind.  For the two
settings-mismatch exceptions the numeric fields are named after the slot of the
message template they fill: the code raises
`'Current setting for {} is {isSlot}, but {expectedSlot} is expected.'`
(grbldriver.py lines 160–163 and 174–175), so `isSlot` is what the message
presents as the current/actual device value and `expectedSlot` is what it
presents as the expected value. -/
inductive PyErr : Type
  | alarm
  | indexError
  | assertError (msg : String)
  | attributeError
  | keyError (key : String)
  | valueError
  | settingsMismatch (key : String) (isSlot expectedSlot : ℚ)
  | globalMismatch (code : ℕ) (isSlot expectedSlot : ℚ)
  | positionMismatch (stoppedAt requested : ℚ)
  deriving Repr, DecidableEq

/-- Primitive device-facing actions (Act) a driver method performs, in order.
`write c` is `self._write(c)` (serial write of `c` plus CR), `sleep` a
`time.sleep`, `drain` a `self._read_buffer()`, `resetInput` a
`self.ser.reset_input_buffer()`, and `poll` one whole `get_status_report`
exchange (used at the coarser granularity of `controlled_stop`). -/
inductive Act : Type
  | write (cmd : String)
  | sleep
  | drain
  | resetInput
  | poll
  deriving Repr, DecidableEq

/-! ## Configuration from `GrblDriver.__init__` and `_update_writesettings` -/

/-- `self.xsettingsmap` (grbldriver.py lines 40–44): logical key → device code. -/
def xsettingsmap : List (String × String) :=
  [("steps/mm", "$100"), ("mm/min", "$110"), ("mm/sec2", "$120")]

/-- `self.ysettingsmap` (lines 54–58). -/
def ysettingsmap : List (String × String) :=
  [("steps/mm", "$101"), ("mm/min", "$111"), ("mm/sec2", "$121")]

/-- `self.zsettingsmap` (lines 68–72). -/
def zsettingsmap : List (String × String) :=
  [("steps/mm", "$102"), ("mm/min", "$112"), ("mm/sec2", "$122")]

/-- Per-axis configuration dict (`self.xconfig` etc., identical for x, y, z):
`steps/sec = 6400`, `steps/sec2 = 5000`, `steps/mm = 1000`. -/
structure AxisConfig : Type where
  stepsPerSec : ℚ
  stepsPerSec2 : ℚ
  stepsPerMM : ℚ
  deriving Repr, DecidableEq

/-- `self.xconfig` = `self.yconfig` = `self.zconfig` (lines 33–37, 47–51, 61–65). -/
def axisConfig : AxisConfig := ⟨6400, 5000, 1000⟩

/-- `_update_writesettings` (lines 87–102): the derived per-axis write settings,
`steps/mm = 1000` literal, `mm/min = steps/sec / steps/mm * 60`,
`mm/sec2 = steps/sec2 / steps/mm`.  All three axes share the same config, so
all three write-settings dicts are this one. -/
def writesettings (c : AxisConfig) : List (String × ℚ) :=
  [("steps/mm", 1000),
   ("mm/min", c.stepsPerSec / c.stepsPerMM * 60),
   ("mm/sec2", c.stepsPerSec2 / c.stepsPerMM)]

/-- `self.xwritesettings`. -/
def xwritesettings : List (String × ℚ) := writesettings axisConfig

/-- `self.ywritesettings` (same config as x). -/
def ywritesettings : List (String × ℚ) := writesettings axisConfig

/-- `self.zwritesettings` (same config as x). -/
def zwritesettings : List (String × ℚ) := writesettings axisConfig

/-- `self.globalconfig` (lines 77–85): device code → desired value. -/
def globalconfig : List (ℕ × ℚ) :=
  [(1, 255), (5, 1), (21, 1), (22, 1), (24, 25), (25, 300)]

/-! ## `check_alarm` and `_read_buffer` classification -/

/-- One line is an alarm line when its leading `:`-token is `ALARM`
(`m.split(':')[0] == 'ALARM'`, grbldriver.py line 245). -/
def isAlarmLine (m : String) : Bool :=
  (strSplit ':' m).headD "" == "ALARM"

/-- `check_alarm(bufferoutput)` (lines 243–247): raise on any alarm line. -/
def check_alarm (bufferoutput : List String) : Except PyErr Unit :=
  if bufferoutput.any isAlarmLine then .error .alarm else .ok ()

/-! ## `verify_settings` (lines 135–178) -/

/-- The per-axis parse loop of `verify_settings` (lines 148–155): scan every
drained line with `settingsre_match`; on a match, for each `(k, v)` of the
axis's settings map with `cmd == v`, set `settings[k] = float(reading)`.
The regex guarantees the reading starts with a digit, so `float` cannot fail;
the `getD 0` branch is dead. -/
def parseAxisLine (settingsmap : List (String × String))
    (settings : List (String × ℚ)) (line : String) : List (String × ℚ) :=
  match settingsre_match line with
  | none => settings
  | some (cmd, reading) =>
    settingsmap.foldl
      (fun st kv =>
        if cmd = kv.2 then dictInsert st kv.1 ((pyFloat reading).getD 0) else st)
      settings

/-- The settings dict accumulated by the loop of lines 149–155, starting empty. -/
def parseAxisSettings (settingsmap : List (String × String)) (resp : List String) :
    List (String × ℚ) :=
  resp.foldl (parseAxisLine settingsmap) []

/-- The per-axis check loop of `verify_settings` (lines 158–163): for each
`(s, v)` of `checksettings` in order, look up `settings[s]` (KeyError when
absent) and compare; on inequality raise the mismatch exception whose message
is `format(s, v, settings[s])` — `v` (the expected value) fills the
`is {}` slot and `settings[s]` (the device reading) fills the
`{} is expected` slot. -/
def checkAxisSettings (checksettings settings : List (String × ℚ)) :
    Except PyErr Unit :=
  match checksettings with
  | [] => .ok ()
  | (s, v) :: rest =>
    match dictGet settings s with
    | none => .error (.keyError s)
    | some actual =>
      if actual ≠ v then .error (.settingsMismatch s v actual)
      else checkAxisSettings rest settings

/-- The global-config scan of `verify_settings` (lines 166–175): re-scan every
line with the looser regex, convert the groups with `int`/`float` (ValueError
on empty groups), and for codes present in `globalconfig` compare; a mismatch
raises with message `format(cmd, globalconfig[cmd], reading)` — again the
expected value fills the `is {}` slot and the reading the
`{} is expected` slot. -/
def checkGlobalConfig : List String → Except PyErr Unit
  | [] => .ok ()
  | s :: rest =>
    match globalre_match s with
    | none => checkGlobalConfig rest
    | some (cmdS, readingS) =>
      match pyInt cmdS with
      | none => .error .valueError
      | some cmd =>
        match pyFloat readingS with
        | none => .error .valueError
        | some reading =>
          match dictGetNat globalconfig cmd with
          | none => checkGlobalConfig rest
          | some expected =>
            if reading ≠ expected then .error (.globalMismatch cmd expected reading)
            else checkGlobalConfig rest

/-- `verify_settings` (lines 135–178) as a function of the drained settings
dump `resp`: for each axis in x, y, z order parse then check; then scan the
global config; on success return `True`.  Note: no `check_alarm` call appears
anywhere in this method in the source. -/
def verify_settings (resp : List String) : Except PyErr Bool := do
  checkAxisSettings xwritesettings (parseAxisSettings xsettingsmap resp)
  checkAxisSettings ywritesettings (parseAxisSettings ysettingsmap resp)
  checkAxisSettings zwritesettings (parseAxisSettings zsettingsmap resp)
  checkGlobalConfig resp
  return true

/-! ## `get_status_report` (lines 226–241) -/

/-- `re.match(r'\<.*\>', s)` succeeds iff `s` starts with `<` and a `>` occurs
somewhere after it (the match is anchored at the start only, line 234). -/
def bracketMatch (s : String) : Bool :=
  match s.data with
  | '<' :: rest => rest.contains '>'
  | _ => false

/-- `s.strip('<>')`: remove every leading and trailing `<` or `>`. -/
def stripAngle (cs : List Char) : List Char :=
  ((cs.dropWhile (fun c => c = '<' ∨ c = '>')).reverse.dropWhile
    (fun c => c = '<' ∨ c = '>')).reverse

/-- `re.match(r'(.*):(.*)', r).groups()` (line 239): with both groups greedy the
split is at the **last** colon; no colon means `match` returns `None` and
`.groups()` raises AttributeError. -/
def splitLastColon (r : String) : Option (String × String) :=
  match (splitChar ':' r.data).reverse with
  | [] => none
  | [_] => none
  | last :: before => some (String.mk (joinSep ':' before.reverse), String.mk last)

/-- The parsing tail of `get_status_report` (lines 234–241), applied to the
drained response: index `resp[0]` (IndexError on an empty drain), assert it
matches `\<.*\>`, strip the angle brackets, split on `|`, pop the state, and
parse each remaining field at its last colon into the status dict (built here
as an in-order association list). -/
def parse_status_resp : List String → Except PyErr (String × List (String × String))
  | [] => .error .indexError
  | r0 :: _ =>
    if bracketMatch r0 then
      match (splitChar '|' (stripAngle r0.data)).map String.mk with
      | [] => .error .indexError
      | state :: fields => do
        let fs ← fields.mapM (fun r =>
          match splitLastColon r with
          | some p => Except.ok p
          | none => Except.error PyErr.attributeError)
        return (state, fs)
    else .error (.assertError "Error reading status report")

/-- `get_status_report` (lines 226–241) as a function of the stale buffered
lines drained first and the response lines drained after writing `?`.  Returns
both the device-facing action trace and the Python result: drain stale lines,
`check_alarm` them (an alarm aborts before `?` is ever written), write `?`,
sleep, drain the response, `check_alarm` it, then parse. -/
def get_status_report (stale resp : List String) :
    List Act × Except PyErr (String × List (String × String)) :=
  if stale.any isAlarmLine then ([.drain], .error .alarm)
  else if resp.any isAlarmLine then
    ([.drain, .write "?", .sleep, .drain], .error .alarm)
  else
    ([.drain, .write "?", .sleep, .drain], parse_status_resp resp)

/-! ## `_move` (lines 198–208) -/

/-- The two commands `_move` writes (lines 200–202): `pos = steps/config['steps/mm']`
(true division, a float), then `G90` and `G0 <axis><str(pos)>`. -/
def move_cmds (axis : String) (steps stepsPerMM : ℚ) : List String :=
  ["G90", "G0 " ++ axis ++ pyFloatStr (steps / stepsPerMM)]

/-- The blocking confirmation of `_move` (lines 207–208): after the poll loop,
`currentsteps = self.get_positions()[axis]`, then
`assert currentsteps - steps < 1` — the difference is **signed**, not an
absolute value.  On failure the assertion message carries
`(currentsteps, steps)`. -/
def move_confirm (currentsteps steps : ℚ) : Except PyErr Unit :=
  if currentsteps - steps < 1 then .ok ()
  else .error (.positionMismatch currentsteps steps)

/-! ## Settings writes (`_write_settings` lines 115–125, `write_global_config` lines 104–113) -/

/-- The command strings `_write_settings` sends (line 121):
`settingsmap[s] + '={:.3f}'.format(v)` for each `(s, v)` of the settings dict
in order.  Every key of the write-settings dicts is present in its paired map,
so the KeyError branch of `settingsmap[s]` is dead (`getD ""`). -/
def write_settings_cmds (settings : List (String × ℚ))
    (settingsmap : List (String × String)) : List String :=
  settings.map (fun sv => (dictGet settingsmap sv.1).getD "" ++ "=" ++ format3 sv.2)

/-- All per-axis setting-write commands sent by `write_all_settings`
(lines 127–133): x, y, z in order. -/
def all_settings_cmds : List String :=
  write_settings_cmds xwritesettings xsettingsmap ++
  write_settings_cmds ywritesettings ysettingsmap ++
  write_settings_cmds zwritesettings zsettingsmap

/-- The command strings `write_global_config` sends (line 109):
`'${}={}'.format(k, v)` — plain Python `int` formatting of both code and
value, no decimal rendering.  Values in `globalconfig` are the integers from
`__init__`, rendered via `ℚ`'s numerator since all are integral. -/
def global_config_cmds : List String :=
  globalconfig.map (fun kv => "$" ++ toString kv.1 ++ "=" ++ toString kv.2.num)

/-- Does a `$<code>=<value>` command carry a value formatted to exactly three
decimal places? (the form the spec requires of every settings write). -/
def valueThreeDecimals (cmd : String) : Bool :=
  match splitChar '=' cmd.data with
  | [_, v] =>
    match splitChar '.' v with
    | [intPart, frac] =>
      decide (0 < intPart.length) && intPart.all Char.isDigit &&
      decide (frac.length = 3) && frac.all Char.isDigit
    | _ => false
  | _ => false

/-! ## `soft_reset` (lines 289–293), `stop` (lines 307–309), `controlled_stop` (lines 295–305) -/

/-- The action sequence of `soft_reset`: write the reset byte `0x18`, sleep,
drain (discarding the drained lines — no alarm check, never raises). -/
def soft_reset_acts : List Act := [.write "\x18", .sleep, .drain]

/-- `soft_reset` (lines 289–293) as a function of whatever lines the final
drain returns: they are discarded, the result is always success. -/
def soft_reset (_buffered : List String) : List Act × Except PyErr Unit :=
  (soft_reset_acts, .ok ())

/-- `stop` (lines 307–309): its body is exactly `self.soft_reset()`. -/
def stop (buffered : List String) : List Act × Except PyErr Unit :=
  soft_reset buffered

/-- Outcome of `controlled_stop`'s wait loop over a finite observation of the
device: it completed (issued the soft reset), hit the `state.split(':')[1]`
IndexError, propagated an exception from a status poll, or was still polling
when the observed poll results ran out (the real loop would block on). -/
inductive StopOutcome : Type
  | completed
  | indexError
  | raised (e : PyErr)
  | outOfPolls
  deriving Repr, DecidableEq

/-- The `while True` loop of `controlled_stop` (lines 299–305), one entry per
`get_status_report` call: a poll that raises propagates; otherwise
`state.split(':')[1]` (IndexError when the state has no colon) is compared to
`'0'` — equal breaks the loop, then sleep and `soft_reset`; otherwise sleep
and continue. -/
def controlled_stop_go : List (Except PyErr String) → List Act × StopOutcome
  | [] => ([], .outOfPolls)
  | .error e :: _ => ([.poll], .raised e)
  | .ok st :: rest =>
    match (strSplit ':' st)[1]? with
    | none => ([.poll], .indexError)
    | some sub =>
      if sub = "0" then ([.poll, .sleep] ++ soft_reset_acts, .completed)
      else ([.poll, .sleep] ++ (controlled_stop_go rest).1, (controlled_stop_go rest).2)

/-- `controlled_stop` (lines 295–305): write the feed-hold `!`, sleep, then the
wait loop. -/
def controlled_stop (polls : List (Except PyErr String)) : List Act × StopOutcome :=
  ([.write "!", .sleep] ++ (controlled_stop_go polls).1, (controlled_stop_go polls).2)

/-! ## Fixtures and spec-side classifiers -/

/-- A complete, correct settings dump (every per-axis echo and every global
echo at its expected value) with an `ALARM:1` line buffered ahead of it. -/
def fullDumpWithAlarm : List String :=
  ["ALARM:1",
   "$100=1000.000", "$101=1000.000", "$102=1000.000",
   "$110=384.000", "$111=384.000", "$112=384.000",
   "$120=5.000", "$121=5.000", "$122=5.000",
   "$1=255", "$5=1", "$21=1", "$22=1", "$24=25", "$25=300"]

/-- The spec's `StatusParseError` umbrella: the parse-stage exceptions of
`get_status_report` (IndexError on an empty response, the failed bracket
assertion, AttributeError on a colon-free field), as opposed to a `Fault`
(alarm). -/
def isStatusParseErr : PyErr → Bool
  | .indexError => true
  | .assertError _ => true
  | .attributeError => true
  | _ => false

/-! ## Claim theorems -/

/-- C1: the code accepts an arbitrarily large undershoot.  The blocking move's
confirmation check (grbldriver.py line 208) is the signed comparison
`currentsteps - steps < 1`, so a move commanded to 1000 steps that stopped at 0
is reported as success, although the claimed tolerance `|actual − target| < 1`
fails by 1000 steps.  The assertion's own message ("Didn't get there! Stopped
at …") shows the undershoot case was the one it meant to catch. -/
theorem c1_undershoot_accepted :
    move_confirm 0 1000 = Except.ok () ∧ ¬(|(0 : ℚ) - 1000| < 1) := by
  refine ⟨by decide, by decide⟩

/-- C3: the mismatch report's two values are swapped.  On the dump
`$100=800.000` with expected `steps/mm = 1000`, `verify_settings` raises the
mismatch whose message template `Current setting for {} is {}, but {} is
expected.` is filled with `(key, expected, actual)` — i.e. the *expected*
value 1000 lands in the "current setting is" slot and the device's echoed
*actual* value 800 lands in the "is expected" slot (see the field naming of
`PyErr.settingsMismatch`). -/
theorem c3_mismatch_report_swapped :
    verify_settings ["$100=800.000"] =
      Except.error (PyErr.settingsMismatch "steps/mm" 1000 800)
    ∧ dictGet xwritesettings "steps/mm" = some 1000 := by
  refine ⟨by decide, by decide⟩

/-- C4 counterexample: the move command's position text is Python's default
float rendering, not a three-decimal rendering.  With `steps_per_unit = 1000`
and `steps = 1000` the device-facing command is `G0 X1.0`, while the claimed
three-decimal form would be `G0 X1.000`. -/
theorem c4_counterexample :
    move_cmds "X" 1000 1000 = ["G90", "G0 X1.0"]
    ∧ "G0 X" ++ format3 ((1000 : ℚ) / 1000) = "G0 X1.000"
    ∧ ("G0 X1.0" : String) ≠ "G0 X1.000" := by
  refine ⟨by decide, by decide, by decide⟩

/-- C4 amended: the position *value* commanded is exactly
`steps / steps_per_unit` (1 unit at 1000 steps, 1.5 units at 1500), but its
text is Python's shortest float rendering `1.0` / `1.5`, not a three-decimal
rendering. -/
theorem c4_move_value_exact :
    move_cmds "X" 1000 1000 = ["G90", "G0 X" ++ pyFloatStr 1]
    ∧ move_cmds "X" 1500 1000 = ["G90", "G0 X" ++ pyFloatStr (3 / 2)]
    ∧ (1000 : ℚ) / 1000 = 1 ∧ (1500 : ℚ) / 1000 = 3 / 2
    ∧ pyFloatStr 1 = "1.0" ∧ pyFloatStr (3 / 2) = "1.5" := by
  refine ⟨by decide, by decide, by norm_num, by norm_num, by decide, by decide⟩

/-- C7 counterexample: the global-configuration write for code 1 is sent as
`$1=255` (plain integer formatting, grbldriver.py line 109), not with a value
formatted to three decimal places as the claim requires of every
setting-write command. -/
theorem c7_counterexample :
    ("$1=255" ∈ global_config_cmds) ∧ valueThreeDecimals "$1=255" = false := by
  refine ⟨by decide, by decide⟩

/-- C7 amended: the per-axis setting-write commands of `write_all_settings`
all carry values formatted to exactly three decimal places, but the global
configuration writes use plain integer formatting with no decimal point. -/
theorem c7_axis_three_decimals_global_plain :
    all_settings_cmds.all valueThreeDecimals = true
    ∧ global_config_cmds = ["$1=255", "$5=1", "$21=1", "$22=1", "$24=25", "$25=300"]
    ∧ global_config_cmds.all (fun c => !valueThreeDecimals c) = true := by
  refine ⟨by decide, by decide, by decide⟩

/-- C8: `stop` is exactly `soft_reset` — its body is the single call
`self.soft_reset()` (grbldriver.py lines 307–309), so on every buffer state it
performs the identical action sequence with the identical result. -/
theorem c8_stop_is_soft_reset (buffered : List String) :
    stop buffered = soft_reset buffered := rfl

/-- C2 counterexample: `verify_settings` drains the settings dump and uses its
contents with no alarm scan at all (grbldriver.py lines 139–178 contain no
`check_alarm` call): on a dump whose first drained line is `ALARM:1` it
parses, verifies and returns success instead of raising `Fault`. -/
theorem c2_counterexample :
    fullDumpWithAlarm.any isAlarmLine = true
    ∧ verify_settings fullDumpWithAlarm = Except.ok true := by
  refine ⟨by decide, by decide⟩

/-- On a cons response, the status parser only ever inspects the first line. -/
theorem parse_status_resp_cons (r0 : String) (rest : List String) :
    parse_status_resp (r0 :: rest) = parse_status_resp [r0] := rfl

/-- C2 amended: only the status poll alarm-gates its drains.  `get_status_report`
raises `Fault` whenever an alarm line occurs in either of the two buffers it
drains, before any parsing; but `verify_settings` performs no alarm scan at
all — it parses and verifies a drained dump whose first line is `ALARM:1` and
returns success. -/
theorem c2_alarm_gate_only_in_status_poll :
    (∀ stale resp : List String, (stale ++ resp).any isAlarmLine = true →
      (get_status_report stale resp).2 = Except.error PyErr.alarm)
    ∧ fullDumpWithAlarm.any isAlarmLine = true
    ∧ verify_settings fullDumpWithAlarm = Except.ok true := by
  refine ⟨?_, by decide, by decide⟩
  intro stale resp h
  rw [List.any_append] at h
  cases hs : stale.any isAlarmLine with
  | true => simp [get_status_report, hs]
  | false =>
    rw [hs] at h
    simp only [Bool.false_or] at h
    simp [get_status_report, hs, h]

/-- C2 witness: the amended theorem applied at a concrete alarm-bearing stale
buffer and at a concrete alarm-bearing response. -/
theorem c2_alarm_gate_witness :
    (get_status_report ["ALARM:1"] []).2 = Except.error PyErr.alarm
    ∧ (get_status_report [] ["ok", "ALARM:1"]).2 = Except.error PyErr.alarm := by
  exact ⟨c2_alarm_gate_only_in_status_poll.1 ["ALARM:1"] [] (by decide),
         c2_alarm_gate_only_in_status_poll.1 [] ["ok", "ALARM:1"] (by decide)⟩

/-- C5: the status poll's contract.  (1) With no stale alarm the action trace
is exactly: drain the stale lines, write `?`, sleep, drain the response.
(2) A stale alarm aborts after the first drain with `Fault` — the stale drain
is alarm-checked before `?` is sent.  (3) With alarm-free buffers, a response
containing no bracketed line fails with one of the spec's `StatusParseError`
exceptions.  (4) Any success is parsed from exactly one bracketed line: the
first response line, which must match the bracket pattern. -/
theorem c5_status_poll_contract (stale resp : List String) :
    (stale.any isAlarmLine = false →
      (get_status_report stale resp).1 = [Act.drain, Act.write "?", Act.sleep, Act.drain])
    ∧ (stale.any isAlarmLine = true →
      (get_status_report stale resp).1 = [Act.drain]
        ∧ (get_status_report stale resp).2 = Except.error PyErr.alarm)
    ∧ (stale.any isAlarmLine = false → resp.any isAlarmLine = false →
        resp.all (fun s => !bracketMatch s) = true →
        ∃ e, (get_status_report stale resp).2 = Except.error e ∧ isStatusParseErr e = true)
    ∧ (∀ st fs, (get_status_report stale resp).2 = Except.ok (st, fs) →
        ∃ r0 rest, resp = r0 :: rest ∧ bracketMatch r0 = true
          ∧ parse_status_resp [r0] = Except.ok (st, fs)) := by
  refine ⟨?_, ?_, ?_, ?_⟩
  · intro hs
    cases hr : resp.any isAlarmLine <;> simp [get_status_report, hs, hr]
  · intro hs
    simp [get_status_report, hs]
  · intro hs hr hall
    simp only [get_status_report, hs, hr, Bool.false_eq_true, if_false]
    cases resp with
    | nil => exact ⟨PyErr.indexError, rfl, rfl⟩
    | cons r0 rest =>
      have hb : bracketMatch r0 = false := by
        have := List.all_eq_true.mp hall r0 (List.mem_cons_self _ _)
        simpa using this
      refine ⟨PyErr.assertError "Error reading status report", ?_, rfl⟩
      simp [parse_status_resp, hb]
  · intro st fs h
    cases hs : stale.any isAlarmLine <;> rw [get_status_report] at h <;> simp only [hs] at h
    · cases hr : resp.any isAlarmLine <;> simp only [hr] at h
      · simp only [Bool.false_eq_true, if_false] at h
        cases resp with
        | nil => simp [parse_status_resp] at h
        | cons r0 rest =>
          cases hb : bracketMatch r0 with
          | false => rw [parse_status_resp_cons] at h; simp [parse_status_resp, hb] at h
          | true =>
            exact ⟨r0, rest, rfl, hb, by rw [← parse_status_resp_cons r0 rest]; exact h⟩
      · simp at h
    · simp at h

/-- C5 witness: the contract applied at concrete inputs — a clean poll of an
unbracketed response fails with a parse-stage error after the full action
sequence, a stale `ALARM:1` aborts after the first drain, and a well-formed
bracketed response succeeds and is parsed from its (single) bracketed line. -/
theorem c5_status_poll_witness :
    (get_status_report [] ["ok"]).1 = [Act.drain, Act.write "?", Act.sleep, Act.drain]
    ∧ (∃ e, (get_status_report [] ["ok"]).2 = Except.error e ∧ isStatusParseErr e = true)
    ∧ ((get_status_report ["ALARM:1"] []).1 = [Act.drain]
        ∧ (get_status_report ["ALARM:1"] []).2 = Except.error PyErr.alarm)
    ∧ (∃ r0 rest, ["<Idle|MPos:0.000,0.000,0.000>"] = r0 :: rest ∧ bracketMatch r0 = true
        ∧ parse_status_resp [r0] =
            Except.ok ("Idle", [("MPos", "0.000,0.000,0.000")])) := by
  refine ⟨(c5_status_poll_contract [] ["ok"]).1 (by decide),
          (c5_status_poll_contract [] ["ok"]).2.2.1 (by decide) (by decide) (by decide),
          (c5_status_poll_contract ["ALARM:1"] []).2.1 (by decide),
          (c5_status_poll_contract [] ["<Idle|MPos:0.000,0.000,0.000>"]).2.2.2
            "Idle" [("MPos", "0.000,0.000,0.000")] (by decide)⟩

/-- Wait-loop unfolding: a polled state with no post-colon token. -/
theorem controlled_stop_go_ok_none (st : String) (rest : List (Except PyErr String))
    (h : (strSplit ':' st)[1]? = none) :
    controlled_stop_go (Except.ok st :: rest) = ([Act.poll], StopOutcome.indexError) := by
  simp [controlled_stop_go, h]

/-- Wait-loop unfolding: a polled state whose post-colon token is `0`. -/
theorem controlled_stop_go_ok_zero (st : String) (rest : List (Except PyErr String))
    (h : (strSplit ':' st)[1]? = some "0") :
    controlled_stop_go (Except.ok st :: rest) =
      ([Act.poll, Act.sleep] ++ soft_reset_acts, StopOutcome.completed) := by
  simp [controlled_stop_go, h]

/-- Wait-loop unfolding: a polled state whose post-colon token is not `0`. -/
theorem controlled_stop_go_ok_other (st : String) (rest : List (Except PyErr String))
    (sub : String) (h : (strSplit ':' st)[1]? = some sub) (h0 : sub ≠ "0") :
    controlled_stop_go (Except.ok st :: rest) =
      ([Act.poll, Act.sleep] ++ (controlled_stop_go rest).1, (controlled_stop_go rest).2) := by
  simp [controlled_stop_go, h, h0]

/-- The wait loop's action trace contains the soft-reset byte only if some
successfully polled state had `0` as the token after its first colon. -/
theorem controlled_stop_go_softreset_mem (polls : List (Except PyErr String))
    (h : Act.write "\x18" ∈ (controlled_stop_go polls).1) :
    ∃ st, Except.ok st ∈ polls ∧ (strSplit ':' st)[1]? = some "0" := by
  induction polls with
  | nil => simp [controlled_stop_go] at h
  | cons p rest ih =>
    cases p with
    | error e => simp [controlled_stop_go] at h
    | ok st =>
      rcases hsp : (strSplit ':' st)[1]? with _ | sub
      · rw [controlled_stop_go_ok_none st rest hsp] at h
        simp at h
      · by_cases h0 : sub = "0"
        · subst h0
          exact ⟨st, List.mem_cons_self _ _, hsp⟩
        · rw [controlled_stop_go_ok_other st rest sub hsp h0] at h
          simp only [List.cons_append, List.nil_append, List.mem_cons] at h
          rcases h with h | h | h
          · exact absurd h (by decide)
          · exact absurd h (by decide)
          · obtain ⟨st2, hmem, hsub⟩ := ih h
            exact ⟨st2, List.mem_cons_of_mem _ hmem, hsub⟩

/-- If the wait loop completed, its trace contains the soft-reset byte. -/
theorem controlled_stop_go_completed_softreset (polls : List (Except PyErr String))
    (h : (controlled_stop_go polls).2 = StopOutcome.completed) :
    Act.write "\x18" ∈ (controlled_stop_go polls).1 := by
  induction polls with
  | nil => simp [controlled_stop_go] at h
  | cons p rest ih =>
    cases p with
    | error e => simp [controlled_stop_go] at h
    | ok st =>
      rcases hsp : (strSplit ':' st)[1]? with _ | sub
      · rw [controlled_stop_go_ok_none st rest hsp] at h
        simp at h
      · by_cases h0 : sub = "0"
        · subst h0
          rw [controlled_stop_go_ok_zero st rest hsp]
          decide
        · rw [controlled_stop_go_ok_other st rest sub hsp h0] at h ⊢
          simp only [List.cons_append, List.nil_append, List.mem_cons]
          exact Or.inr (Or.inr (ih h))

/-- Against a device that answers every poll with `Hold:1`, the wait loop never
terminates (still polling after every observed response) and never reaches the
soft reset. -/
theorem controlled_stop_go_hold1 (n : ℕ) :
    (controlled_stop_go (List.replicate n (Except.ok "Hold:1"))).2 = StopOutcome.outOfPolls
    ∧ Act.write "\x18" ∉ (controlled_stop_go (List.replicate n (Except.ok "Hold:1"))).1 := by
  induction n with
  | zero => exact ⟨rfl, by decide⟩
  | succ n ih =>
    rw [List.replicate_succ,
        controlled_stop_go_ok_other "Hold:1" _ "1" (by decide) (by decide)]
    refine ⟨ih.1, ?_⟩
    intro hmem
    simp only [List.cons_append, List.nil_append, List.mem_cons] at hmem
    rcases hmem with h | h | h
    · exact absurd h (by decide)
    · exact absurd h (by decide)
    · exact ih.2 h

/-- Recursion helper for C10: while every earlier poll returns a state whose
post-colon token exists and differs from `0`, a poll returning a state with no
colon makes the loop end in IndexError, without reaching the soft reset. -/
theorem controlled_stop_go_indexerror (st : String) (rest : List (Except PyErr String))
    (hst : (strSplit ':' st)[1]? = none) :
    ∀ pre : List (Except PyErr String),
      (∀ p ∈ pre, ∃ s sub, p = Except.ok s ∧ (strSplit ':' s)[1]? = some sub ∧ sub ≠ "0") →
      (controlled_stop_go (pre ++ Except.ok st :: rest)).2 = StopOutcome.indexError
      ∧ Act.write "\x18" ∉ (controlled_stop_go (pre ++ Except.ok st :: rest)).1
  | [], _ => by
    rw [List.nil_append, controlled_stop_go_ok_none st rest hst]
    exact ⟨rfl, by decide⟩
  | p :: pre, hpre => by
    obtain ⟨s, sub, hp, hsp, hne⟩ := hpre p (List.mem_cons_self _ _)
    subst hp
    rw [List.cons_append, controlled_stop_go_ok_other s _ sub hsp hne]
    obtain ⟨h1, h2⟩ := controlled_stop_go_indexerror st rest hst pre
      (fun q hq => hpre q (List.mem_cons_of_mem _ hq))
    refine ⟨h1, ?_⟩
    intro hmem
    simp only [List.cons_append, List.nil_append, List.mem_cons] at hmem
    rcases hmem with h | h | h
    · exact absurd h (by decide)
    · exact absurd h (by decide)
    · exact h2 h

/-- C6: `controlled_stop`'s ordering contract.  (1) Its first device action is
the feed-hold `!`.  (2) The soft-reset byte appears in its trace only if some
polled status reported sub-state `0`.  (3) If the wait loop completed, the
soft reset was performed.  (4) Against a device that always reports `Hold:1`,
however many polls are observed, the call is still polling and has never
issued the soft reset. -/
theorem c6_controlled_stop_contract (polls : List (Except PyErr String)) :
    (controlled_stop polls).1.head? = some (Act.write "!")
    ∧ (Act.write "\x18" ∈ (controlled_stop polls).1 →
        ∃ st, Except.ok st ∈ polls ∧ (strSplit ':' st)[1]? = some "0")
    ∧ ((controlled_stop polls).2 = StopOutcome.completed →
        Act.write "\x18" ∈ (controlled_stop polls).1)
    ∧ (∀ n, polls = List.replicate n (Except.ok "Hold:1") →
        (controlled_stop polls).2 = StopOutcome.outOfPolls
          ∧ Act.write "\x18" ∉ (controlled_stop polls).1) := by
  refine ⟨rfl, ?_, ?_, ?_⟩
  · intro h
    apply controlled_stop_go_softreset_mem
    simp only [controlled_stop, List.cons_append, List.nil_append, List.mem_cons] at h
    rcases h with h | h | h
    · exact absurd h (by decide)
    · exact absurd h (by decide)
    · exact h
  · intro h
    have hmem := controlled_stop_go_completed_softreset polls h
    simp only [controlled_stop, List.cons_append, List.nil_append, List.mem_cons]
    exact Or.inr (Or.inr hmem)
  · intro n hn
    subst hn
    refine ⟨(controlled_stop_go_hold1 n).1, ?_⟩
    intro hmem
    simp only [controlled_stop, List.cons_append, List.nil_append, List.mem_cons] at hmem
    rcases hmem with h | h | h
    · exact absurd h (by decide)
    · exact absurd h (by decide)
    · exact (controlled_stop_go_hold1 n).2 h

/-- C6 witness: the contract applied to a device that holds once and then
reports `Hold:0` (the stop completes and the soft reset is sent), and to one
that reports `Hold:1` at both observed polls (still polling, no soft reset). -/
theorem c6_controlled_stop_witness :
    (∃ st, Except.ok st ∈ ([Except.ok "Hold:1", Except.ok "Hold:0"] : List (Except PyErr String))
      ∧ (strSplit ':' st)[1]? = some "0")
    ∧ Act.write "\x18" ∈ (controlled_stop [Except.ok "Hold:1", Except.ok "Hold:0"]).1
    ∧ ((controlled_stop (List.replicate 2 (Except.ok "Hold:1"))).2 = StopOutcome.outOfPolls
        ∧ Act.write "\x18" ∉ (controlled_stop (List.replicate 2 (Except.ok "Hold:1"))).1) := by
  refine ⟨(c6_controlled_stop_contract [Except.ok "Hold:1", Except.ok "Hold:0"]).2.1 (by decide),
          (c6_controlled_stop_contract [Except.ok "Hold:1", Except.ok "Hold:0"]).2.2.1 (by decide),
          (c6_controlled_stop_contract (List.replicate 2 (Except.ok "Hold:1"))).2.2.2 2 rfl⟩

/-- C10: if every poll before some point returns a state that does have a
colon-separated sub-code different from `0`, and that poll returns a state
with no colon at all (e.g. a bare `Idle`), then `state.split(':')[1]` indexes
past the end of the split list and `controlled_stop` dies with an unhandled
IndexError — the soft reset of the stop sequence is never issued. -/
theorem c10_bare_state_index_error (pre : List (Except PyErr String)) (st : String)
    (rest : List (Except PyErr String))
    (hpre : ∀ p ∈ pre, ∃ s sub, p = Except.ok s ∧ (strSplit ':' s)[1]? = some sub ∧ sub ≠ "0")
    (hst : (strSplit ':' st)[1]? = none) :
    (controlled_stop (pre ++ Except.ok st :: rest)).2 = StopOutcome.indexError
    ∧ Act.write "\x18" ∉ (controlled_stop (pre ++ Except.ok st :: rest)).1 := by
  obtain ⟨h1, h2⟩ := controlled_stop_go_indexerror st rest hst pre hpre
  refine ⟨h1, ?_⟩
  intro hmem
  simp only [controlled_stop, List.cons_append, List.nil_append, List.mem_cons] at hmem
  rcases hmem with h | h | h
  · exact absurd h (by decide)
  · exact absurd h (by decide)
  · exact h2 h

/-- C10 witness: a single poll answering the bare state `Idle` (no colon, as
when the device is not moving) makes `controlled_stop` fail with IndexError
and never send the soft reset. -/
theorem c10_bare_state_witness :
    (controlled_stop [Except.ok "Idle"]).2 = StopOutcome.indexError
    ∧ Act.write "\x18" ∉ (controlled_stop [Except.ok "Idle"]).1 :=
  c10_bare_state_index_error [] "Idle" [] (by simp) (by decide)

/-- Inserting under a different key leaves a lookup unchanged. -/
theorem dictGet_dictInsert_ne {α : Type} (d : List (String × α)) (k k2 : String) (v : α)
    (h : k ≠ k2) : dictGet (dictInsert d k2 v) k = dictGet d k := by
  induction d with
  | nil => simp [dictInsert, dictGet, Ne.symm h]
  | cons p rest ih =>
    rcases p with ⟨pk, pv⟩
    by_cases hp : pk = k2
    · subst hp
      simp [dictInsert, dictGet, Ne.symm h]
    · by_cases hk : pk = k
      · subst hk
        simp [dictInsert, dictGet, hp]
      · simp [dictInsert, dictGet, hp, hk, ih]

/-- A dump line that does not echo setting code `$100` cannot create or change
the `steps/mm` binding of the x-axis settings dict. -/
theorem parseAxisLine_no100 (st : List (String × ℚ)) (line : String)
    (h : (settingsre_match line).map Prod.fst ≠ some "$100") :
    dictGet (parseAxisLine xsettingsmap st line) "steps/mm" = dictGet st "steps/mm" := by
  unfold parseAxisLine
  rcases hm : settingsre_match line with _ | ⟨cmd, reading⟩
  · rfl
  · rw [hm] at h
    simp only [Option.map_some'] at h
    have hcmd : cmd ≠ "$100" := fun hc => h (by rw [hc])
    simp only [xsettingsmap, List.foldl_cons, List.foldl_nil]
    rw [if_neg hcmd]
    have h2 : ∀ st2 : List (String × ℚ),
        dictGet (if cmd = "$110" then dictInsert st2 "mm/min" ((pyFloat reading).getD 0)
                 else st2) "steps/mm" = dictGet st2 "steps/mm" := by
      intro st2
      split
      · exact dictGet_dictInsert_ne _ _ _ _ (by decide)
      · rfl
    have h3 : ∀ st2 : List (String × ℚ),
        dictGet (if cmd = "$120" then dictInsert st2 "mm/sec2" ((pyFloat reading).getD 0)
                 else st2) "steps/mm" = dictGet st2 "steps/mm" := by
      intro st2
      split
      · exact dictGet_dictInsert_ne _ _ _ _ (by decide)
      · rfl
    rw [h3, h2]

/-- Folding the parse loop over a dump with no `$100` echo never creates a
`steps/mm` binding. -/
theorem parseAxisFold_no100 :
    ∀ resp : List String,
      (∀ s ∈ resp, (settingsre_match s).map Prod.fst ≠ some "$100") →
      ∀ st : List (String × ℚ), dictGet st "steps/mm" = none →
        dictGet (resp.foldl (parseAxisLine xsettingsmap) st) "steps/mm" = none
  | [], _, _, hst => hst
  | line :: rest, h, st, hst => by
    rw [List.foldl_cons]
    exact parseAxisFold_no100 rest (fun s hs => h s (List.mem_cons_of_mem _ hs)) _
      (by rw [parseAxisLine_no100 st line (h line (List.mem_cons_self _ _))]; exact hst)

/-- C9 amended: on any settings dump containing no `$100` echo at all, the
x-axis check reaches the missing-key lookup first and `verify_settings` fails
with a raw `KeyError('steps/mm')` — by construction not a
`SettingsMismatchError` naming the key.  (A mismatch on a key checked earlier
would instead preempt with that mismatch, as the counterexample shows.) -/
theorem c9_missing_key_keyerror (resp : List String)
    (h : ∀ s ∈ resp, (settingsre_match s).map Prod.fst ≠ some "$100") :
    verify_settings resp = Except.error (PyErr.keyError "steps/mm") := by
  have hm : dictGet (parseAxisSettings xsettingsmap resp) "steps/mm" = none := by
    unfold parseAxisSettings
    exact parseAxisFold_no100 resp h [] rfl
  have hx : checkAxisSettings xwritesettings (parseAxisSettings xsettingsmap resp)
      = Except.error (PyErr.keyError "steps/mm") := by
    simp only [xwritesettings, writesettings, axisConfig, checkAxisSettings, hm]
  unfold verify_settings
  rw [hx]
  rfl

/-- C9 witness: the empty dump (no echoes at all) raises
`KeyError('steps/mm')`. -/
theorem c9_missing_key_witness :
    verify_settings [] = Except.error (PyErr.keyError "steps/mm") :=
  c9_missing_key_keyerror [] (by simp)

/-- C9 counterexample to the claim as stated: the dump `["$100=999.000"]` has
no echo for the expected x-axis code `$110` (so "at least one expected
per-axis setting code has no matching echo line" holds), yet `verify_settings`
fails with a `SettingsMismatchError` for `steps/mm`, not a KeyError: the
mismatch on the earlier-checked key preempts the missing-key lookup. -/
theorem c9_counterexample :
    verify_settings ["$100=999.000"] =
      Except.error (PyErr.settingsMismatch "steps/mm" 1000 999)
    ∧ (["$100=999.000"].all
        (fun s => !((settingsre_match s).map Prod.fst == some "$110"))) = true := by
  refine ⟨by decide, by decide⟩
